import Mathlib

/-!
Shallow embedding of
`google-cloud-sdk/lib/googlecloudsdk/api_lib/container/backup_restore/util.py`:
the wait-for-completion entry points (`WaitForBackupToFinish`,
`WaitForRestoreToFinish`), request construction (`CreateBackup`), and the
long-running-operation polling engine they drive.  The retry engine
(`googlecloudsdk.core.util.retry`) and the `poller` module are imported by
`util.py` but are not part of the repository sources here; those parts are
modelled from the specification (its §4.1–§4.4 contracts) and marked as such
in their doc comments.
-/

namespace BackupRestoreUtil

/-- States of a watched backup/restore resource, drawn from the small
enumerated set carried by each poll snapshot. -/
inductive ResourceState
  | PENDING
  | IN_PROGRESS
  | SUCCEEDED
  | FAILED
  deriving DecidableEq

/-- Render a resource state the way Python string-formats it into log lines. -/
def stateToString : ResourceState → String
  | .PENDING => "PENDING"
  | .IN_PROGRESS => "IN_PROGRESS"
  | .SUCCEEDED => "SUCCEEDED"
  | .FAILED => "FAILED"

/-- A poll snapshot of the watched resource: its `state` field plus the rest
of the record, kept opaque.  Each probe yields a fresh immutable snapshot. -/
structure PollResult where
  state : ResourceState
  payload : String
  deriving DecidableEq

/-- Modelled from the spec: terminal states are those after which no further
transitions occur (success or failure of the underlying entity). -/
def terminalState : ResourceState → Bool
  | .SUCCEEDED => true
  | .FAILED => true
  | _ => false

/-- Modelled from the spec: `poller.BackupPoller.IsNotDone` /
`poller.RestorePoller.IsNotDone` (the `poller` module is not in the repository
sources): a pure predicate, true iff `result.state` is not one of the terminal
states. -/
def IsNotDone (r : PollResult) : Bool :=
  !terminalState r.state

/-! ## Python-value modelling for the src-level boundary claims -/

/-- A stand-in for Python objects passed as the `client` argument: either the
process-wide default client produced by `GetClientInstance()`, or some other
object with an explicit Python truthiness and an identity tag. -/
inductive PyClient
  | defaultClient
  | obj (truthy : Bool) (tag : Nat)
  deriving DecidableEq

/-- Python truthiness of a client object. -/
def PyClient.isTruthy : PyClient → Bool
  | .defaultClient => true
  | .obj t _ => t

/-- Client resolution at the top of `WaitForBackupToFinish`
(`if client is None: client = GetClientInstance()`): only the Python `None`
(modelled as `Option.none`) is replaced by the default client. -/
def resolveClientBackup : Option PyClient → PyClient
  | none => .defaultClient
  | some c => c

/-- Client resolution at the top of `WaitForRestoreToFinish`
(`if not client: client = GetClientInstance()`): any falsy value, `None`
included, is replaced by the default client. -/
def resolveClientRestore : Option PyClient → PyClient
  | none => .defaultClient
  | some c => if c.isTruthy then c else .defaultClient

/-! ## CreateBackup request construction -/

/-- The `Backup` proto message assembled by `CreateBackup`; every field starts
unset (`none`). -/
structure BackupMessage where
  description : Option String := none
  retainDays : Option Int := none
  deleteLockDays : Option Int := none
  labels : Option (List (String × String)) := none
  deriving DecidableEq

/-- The outgoing `GkebackupProjectsLocationsBackupPlansBackupsCreateRequest`. -/
structure CreateBackupRequest where
  backupId : String
  parent : String
  backup : BackupMessage
  deriving DecidableEq

/-- Python truthiness of an optional string argument (`if description:`). -/
def pyTruthyStr : Option String → Bool
  | none => false
  | some s => !(s == "")

/-- Python truthiness of an optional integer argument (`if retain_days:`). -/
def pyTruthyInt : Option Int → Bool
  | none => false
  | some n => !(n == 0)

/-- Python truthiness of an optional dict argument (`if labels:`). -/
def pyTruthyDict : Option (List (String × String)) → Bool
  | none => false
  | some l => !l.isEmpty

/-- Request construction of `CreateBackup` (util.py lines 62–86): fields of
`req.backup` are assigned only under the Python truthiness of the
corresponding argument; the trailing remote call is outside the model. -/
def CreateBackup (backupId parent : String) (description : Option String)
    (labels : Option (List (String × String)))
    (retain_days delete_lock_days : Option Int) : CreateBackupRequest :=
  { backupId := backupId
    parent := parent
    backup :=
      { description := if pyTruthyStr description then description else none
        retainDays := if pyTruthyInt retain_days then retain_days else none
        deleteLockDays :=
          if pyTruthyInt delete_lock_days then delete_lock_days else none
        labels := if pyTruthyDict labels then labels else none } }

/-! ## Wait configuration (defaults from util.py) -/

/-- The keyword-argument surface of the two wait entry points, with the
default values written in util.py lines 135–143 and 277–285.  The multiplier
is the Python literal `1.4`, embedded as the rational `7/5`. -/
structure WaitConfig where
  max_wait_ms : ℕ := 1800000
  exponential_sleep_multiplier : ℚ := 7 / 5
  jitter_ms : ℕ := 1000
  wait_ceiling_ms : ℕ := 180000
  sleep_ms : ℕ := 2000
  deriving DecidableEq

/-- The default configuration of `WaitForBackupToFinish`. -/
def backupWaitDefaults : WaitConfig := {}

/-- The default configuration of `WaitForRestoreToFinish`. -/
def restoreWaitDefaults : WaitConfig := {}

/-! ## Backoff scheduler (spec-modelled) -/

/-- Modelled from the spec: the Backoff Scheduler of
`googlecloudsdk.core.util.retry` (not in the repository sources).  Given
`(base_delay, multiplier, ceiling)` and the per-step random jitter draws
`j : ℕ → ℚ`, it produces `delay[0] = base_delay` and
`delay[n+1] = min (delay[n] * multiplier + j n) ceiling`. -/
def delaySeq (base mult ceiling : ℚ) (j : ℕ → ℚ) : ℕ → ℚ
  | 0 => base
  | n + 1 => min (delaySeq base mult ceiling j n * mult + j n) ceiling

/-! ## Retry engine (spec-modelled) -/

/-- Outcome of one probe of the remote service: a fresh snapshot, or a
transport-level failure carrying the original error. -/
inductive ProbeOutcome
  | ok (r : PollResult)
  | transportError (e : String)
  deriving DecidableEq

/-- Errors the retry engine can raise: the wait-timeout signal
(`retry.WaitException`), the retrial-count signal
(`retry.MaxRetrialsException`), or a propagated transport failure. -/
inductive RetryError
  | waitException
  | maxRetrials
  | transport (e : String)
  deriving DecidableEq

/-- Final outcome of one engine run. -/
inductive RetryOutcome
  | done (r : PollResult)
  | err (e : RetryError)
  deriving DecidableEq

/-- Trace of one engine run: the outcome together with the number of probe
invocations, the number of status-update callback invocations, and the list
of delays actually slept, in order. -/
structure EngineRun where
  outcome : RetryOutcome
  probes : ℕ
  updates : ℕ
  sleeps : List ℚ
  deriving DecidableEq

/-- Modelled from the spec: whether a retrial-count bound is configured and
the probe index has exhausted it; with `max_retrials = none` (unlimited) this
is never the case. -/
def hitMaxRetrials (maxRetrials : Option ℕ) (n : ℕ) : Bool :=
  match maxRetrials with
  | some k => k ≤ n
  | none => false

/-- Modelled from the spec: the loop body of `retry.Retryer.RetryOnResult`
(not in the repository sources), following the spec's Retry Engine algorithm:
probe (propagating transport failure), invoke the status callback, return when
the should-retry predicate is false, raise the wait-timeout signal when
elapsed time has reached `maxWait`, otherwise sleep the next scheduler delay
and repeat; with a retrial bound only when `maxRetrials` is not `none`.
`fuel` bounds the recursion depth of the model only; `none` means the fuel ran
out before the loop terminated. -/
def retryAux (probe : ℕ → ProbeOutcome) (shouldRetry : PollResult → Bool)
    (delay : ℕ → ℚ) (maxWait : ℚ) (maxRetrials : Option ℕ) :
    ℕ → ℕ → ℚ → List ℚ → Option EngineRun
  | 0, _, _, _ => none
  | fuel + 1, n, elapsed, slept =>
    match probe n with
    | .transportError e => some ⟨.err (.transport e), n + 1, n, slept.reverse⟩
    | .ok r =>
      if !shouldRetry r then
        some ⟨.done r, n + 1, n + 1, slept.reverse⟩
      else if maxWait ≤ elapsed then
        some ⟨.err .waitException, n + 1, n + 1, slept.reverse⟩
      else if hitMaxRetrials maxRetrials n then
        some ⟨.err .maxRetrials, n + 1, n + 1, slept.reverse⟩
      else
        retryAux probe shouldRetry delay maxWait maxRetrials fuel (n + 1)
          (elapsed + delay n) (delay n :: slept)

/-- Modelled from the spec: `retry.Retryer.RetryOnResult` — run the retry loop
from its initial state (first probe index 0, zero elapsed time, nothing slept
yet). -/
def RetryOnResult (probe : ℕ → ProbeOutcome) (shouldRetry : PollResult → Bool)
    (delay : ℕ → ℚ) (maxWait : ℚ) (maxRetrials : Option ℕ) (fuel : ℕ) :
    Option EngineRun :=
  retryAux probe shouldRetry delay maxWait maxRetrials fuel 0 0 []

/-! ## Wait entry points (util.py lines 135–173 and 277–315) -/

/-- What a wait entry point does for its caller: return the final poll result
(printing the given completion line), raise `WaitForCompletionTimeoutError`
with the given message, or let any other error propagate unchanged. -/
inductive WaitOutcome
  | returns (r : PollResult) (completionLine : String)
  | timeoutError (msg : String)
  | propagates (e : RetryError)
  deriving DecidableEq

/-- The exact message of the `WaitForCompletionTimeoutError` raised by
`WaitForBackupToFinish` (util.py lines 169–173). -/
def backupTimeoutMsg : String :=
  "Timeout waiting for backup to complete. Backup is not completed, use \"gcloud container backup-restore backups describe\" command to check backup status."

/-- The exact message of the `WaitForCompletionTimeoutError` raised by
`WaitForRestoreToFinish` (util.py lines 311–315). -/
def restoreTimeoutMsg : String :=
  "Timeout waiting for restore to complete. Restore is not completed, use \"gcloud container backup-restore restores describe\" command to check restore status."

/-- The completion line `WaitForBackupToFinish` prints on the success path
(util.py line 165). -/
def backupCompletionLine (s : ResourceState) : String :=
  "Backup completed. Backup state: " ++ stateToString s

/-- The completion line `WaitForRestoreToFinish` prints on the success path
(util.py line 307). -/
def restoreCompletionLine (s : ResourceState) : String :=
  "Restore completed. Restore state: " ++ stateToString s

/-- The try/except around the retry call in `WaitForBackupToFinish`
(util.py lines 158–173): a returned result is passed through with its
completion line; `retry.WaitException` alone becomes
`WaitForCompletionTimeoutError`; every other error propagates unchanged. -/
def backupTranslate : RetryOutcome → WaitOutcome
  | .done r => .returns r (backupCompletionLine r.state)
  | .err .waitException => .timeoutError backupTimeoutMsg
  | .err e => .propagates e

/-- The try/except around the retry call in `WaitForRestoreToFinish`
(util.py lines 300–315). -/
def restoreTranslate : RetryOutcome → WaitOutcome
  | .done r => .returns r (restoreCompletionLine r.state)
  | .err .waitException => .timeoutError restoreTimeoutMsg
  | .err e => .propagates e

/-- `WaitForBackupToFinish` (util.py lines 135–173): builds a retryer with
`max_retrials=None` and the configured waits, drives the backup poller's
`Poll` under `IsNotDone`, and translates the outcome.  The probe stream, the
jitter draws and the model fuel are explicit parameters. -/
def WaitForBackupToFinish (probe : ℕ → ProbeOutcome) (cfg : WaitConfig)
    (j : ℕ → ℚ) (fuel : ℕ) : Option (WaitOutcome × EngineRun) :=
  (RetryOnResult probe IsNotDone
      (delaySeq (cfg.sleep_ms : ℚ) cfg.exponential_sleep_multiplier
        (cfg.wait_ceiling_ms : ℚ) j)
      (cfg.max_wait_ms : ℚ) none fuel).map
    fun run => (backupTranslate run.outcome, run)

/-- `WaitForRestoreToFinish` (util.py lines 277–315): identical engine wiring
with the restore poller and restore-flavoured messages. -/
def WaitForRestoreToFinish (probe : ℕ → ProbeOutcome) (cfg : WaitConfig)
    (j : ℕ → ℚ) (fuel : ℕ) : Option (WaitOutcome × EngineRun) :=
  (RetryOnResult probe IsNotDone
      (delaySeq (cfg.sleep_ms : ℚ) cfg.exponential_sleep_multiplier
        (cfg.wait_ceiling_ms : ℚ) j)
      (cfg.max_wait_ms : ℚ) none fuel).map
    fun run => (restoreTranslate run.outcome, run)

/-! ## Concrete scenarios -/

/-- A snapshot still in progress. -/
def inProgressSnapshot : PollResult := ⟨.IN_PROGRESS, "snapshot-a"⟩

/-- A snapshot in the successful terminal state. -/
def succeededSnapshot : PollResult := ⟨.SUCCEEDED, "snapshot-b"⟩

/-- A snapshot in the terminal-but-failed domain state. -/
def failedSnapshot : PollResult := ⟨.FAILED, "snapshot-c"⟩

/-- A prober whose every read finds the resource still in progress. -/
def probeAlwaysInProgress : ℕ → ProbeOutcome := fun _ => .ok inProgressSnapshot

/-- A prober whose every read finds the resource already succeeded. -/
def probeAlreadySucceeded : ℕ → ProbeOutcome := fun _ => .ok succeededSnapshot

/-- A prober whose every read finds the resource in the failed domain state. -/
def probeAlreadyFailedState : ℕ → ProbeOutcome := fun _ => .ok failedSnapshot

/-- A prober whose remote read fails at the transport level. -/
def probeTransportDown : ℕ → ProbeOutcome :=
  fun _ => .transportError "connection reset"

/-- Jitter draws that are always zero. -/
def zeroJitter : ℕ → ℚ := fun _ => 0

/-- A configuration whose whole time budget is already exhausted at the first
probe. -/
def zeroBudgetConfig : WaitConfig := { max_wait_ms := 0 }

/-- The engine run produced by a first probe that times out immediately. -/
def timeoutRun : EngineRun := ⟨.err .waitException, 1, 1, []⟩

/-- The engine run produced by a first probe that fails at transport level. -/
def transportRun : EngineRun := ⟨.err (.transport "connection reset"), 1, 0, []⟩

/-- The engine run produced by a first probe that is already succeeded. -/
def successRun : EngineRun := ⟨.done succeededSnapshot, 1, 1, []⟩

/-- The engine run produced by a first probe in the failed domain state. -/
def failedStateRun : EngineRun := ⟨.done failedSnapshot, 1, 1, []⟩

/-- A prober that reads in-progress on the first probe and the failed domain
state on every later probe. -/
def probeFailedSecond : ℕ → ProbeOutcome :=
  fun n => if n = 0 then .ok inProgressSnapshot else .ok failedSnapshot

/-- The engine run of `probeFailedSecond` under the default configuration:
two probes, two status updates, one sleep of the 2000 ms base delay, ending
in the failed domain snapshot. -/
def delayedFailedRun : EngineRun := ⟨.done failedSnapshot, 2, 2, [2000]⟩

/-! ## Theorems -/

/-- C7: the default configuration of both wait operations is a total wait
budget of 30 minutes (`max_wait_ms = 1800000`), an initial probe interval of
2 seconds (`sleep_ms = 2000`), exponential multiplier `1.4`, maximum added
jitter of 1 second (`jitter_ms = 1000`), and a per-delay ceiling of 3 minutes
(`wait_ceiling_ms = 180000`). -/
theorem c7_default_wait_configuration :
    backupWaitDefaults.max_wait_ms = 1800000 ∧
    backupWaitDefaults.sleep_ms = 2000 ∧
    backupWaitDefaults.exponential_sleep_multiplier = 7 / 5 ∧
    backupWaitDefaults.jitter_ms = 1000 ∧
    backupWaitDefaults.wait_ceiling_ms = 180000 ∧
    restoreWaitDefaults = backupWaitDefaults ∧
    backupWaitDefaults.max_wait_ms = 30 * 60 * 1000 ∧
    backupWaitDefaults.sleep_ms = 2 * 1000 ∧
    backupWaitDefaults.jitter_ms = 1 * 1000 ∧
    backupWaitDefaults.wait_ceiling_ms = 3 * 60 * 1000 ∧
    backupWaitDefaults.exponential_sleep_multiplier * 10 = 14 := by
  refine ⟨rfl, rfl, rfl, rfl, rfl, rfl, rfl, rfl, rfl, rfl, ?_⟩
  norm_num [backupWaitDefaults]

/-- C9: `WaitForBackupToFinish` replaces the supplied client with the default
only when it is `None` (identity check), while `WaitForRestoreToFinish`
replaces it whenever it is falsy; a falsy-but-non-None client is therefore
used by the backup path but silently ignored by the restore path. -/
theorem c9_client_resolution_asymmetry :
    (∀ c : PyClient, resolveClientBackup (some c) = c) ∧
    resolveClientBackup none = PyClient.defaultClient ∧
    resolveClientRestore none = PyClient.defaultClient ∧
    resolveClientRestore (some (.obj true 5)) = .obj true 5 ∧
    (PyClient.obj false 0).isTruthy = false ∧
    PyClient.obj false 0 ≠ PyClient.defaultClient ∧
    resolveClientBackup (some (.obj false 0)) = .obj false 0 ∧
    resolveClientRestore (some (.obj false 0)) = PyClient.defaultClient := by
  exact ⟨fun c => rfl, rfl, rfl, rfl, rfl, by decide, rfl, rfl⟩

/-- C10: `CreateBackup` assigns the `description`, `retainDays`,
`deleteLockDays` and `labels` request fields only when the corresponding
argument is truthy; `retain_days = 0` or `delete_lock_days = 0` leaves the
field unset exactly as if the argument had been `None`, so an explicit zero
cannot be requested. -/
theorem c10_create_backup_truthy_fields :
    (∀ bid par d l dl,
      CreateBackup bid par d l (some 0) dl = CreateBackup bid par d l none dl) ∧
    (∀ bid par d l rd,
      CreateBackup bid par d l rd (some 0) = CreateBackup bid par d l rd none) ∧
    (∀ bid par l rd dl,
      CreateBackup bid par (some "") l rd dl =
        CreateBackup bid par none l rd dl) ∧
    (∀ bid par d rd dl,
      CreateBackup bid par d (some []) rd dl =
        CreateBackup bid par d none rd dl) ∧
    (CreateBackup "b" "p" (some "desc") (some [("k", "v")]) (some 5)
        (some 7)).backup =
      ⟨some "desc", some 5, some 7, some [("k", "v")]⟩ ∧
    (CreateBackup "b" "p" none none (some 0) (some 0)).backup.retainDays =
      none ∧
    (CreateBackup "b" "p" none none (some 0) (some 0)).backup.deleteLockDays =
      none := by
  exact ⟨fun bid par d l dl => rfl, fun bid par d l rd => rfl,
    fun bid par l rd dl => rfl, fun bid par d rd dl => rfl, rfl, rfl, rfl⟩

/-- Inversion for `WaitForBackupToFinish`: a produced pair comes from an
engine run, and the outcome is its translation. -/
theorem WaitForBackupToFinish_inv (probe : ℕ → ProbeOutcome) (cfg : WaitConfig)
    (j : ℕ → ℚ) (fuel : ℕ) (out : WaitOutcome) (run : EngineRun)
    (h : WaitForBackupToFinish probe cfg j fuel = some (out, run)) :
    RetryOnResult probe IsNotDone
        (delaySeq (cfg.sleep_ms : ℚ) cfg.exponential_sleep_multiplier
          (cfg.wait_ceiling_ms : ℚ) j)
        (cfg.max_wait_ms : ℚ) none fuel = some run ∧
      out = backupTranslate run.outcome := by
  unfold WaitForBackupToFinish at h
  rcases Option.map_eq_some'.mp h with ⟨run', heng, hpair⟩
  injection hpair with h1 h2
  subst h2
  exact ⟨heng, h1.symm⟩

/-- Inversion for `WaitForRestoreToFinish`. -/
theorem WaitForRestoreToFinish_inv (probe : ℕ → ProbeOutcome)
    (cfg : WaitConfig) (j : ℕ → ℚ) (fuel : ℕ) (out : WaitOutcome)
    (run : EngineRun)
    (h : WaitForRestoreToFinish probe cfg j fuel = some (out, run)) :
    RetryOnResult probe IsNotDone
        (delaySeq (cfg.sleep_ms : ℚ) cfg.exponential_sleep_multiplier
          (cfg.wait_ceiling_ms : ℚ) j)
        (cfg.max_wait_ms : ℚ) none fuel = some run ∧
      out = restoreTranslate run.outcome := by
  unfold WaitForRestoreToFinish at h
  rcases Option.map_eq_some'.mp h with ⟨run', heng, hpair⟩
  injection hpair with h1 h2
  subst h2
  exact ⟨heng, h1.symm⟩

/-- With an unlimited retrial count (`max_retrials = none`), no run of the
retry loop ever produces the max-retrials error. -/
theorem retryAux_none_not_maxRetrials (probe : ℕ → ProbeOutcome)
    (sr : PollResult → Bool) (delay : ℕ → ℚ) (maxWait : ℚ) :
    ∀ fuel n elapsed slept run,
      retryAux probe sr delay maxWait none fuel n elapsed slept = some run →
      run.outcome ≠ RetryOutcome.err .maxRetrials := by
  intro fuel
  induction fuel with
  | zero =>
    intro n elapsed slept run h
    simp [retryAux] at h
  | succ fuel ih =>
    intro n elapsed slept run h
    simp only [retryAux] at h
    cases hp : probe n with
    | transportError e =>
      rw [hp] at h
      simp only [Option.some.injEq] at h
      subst h
      simp
    | ok r =>
      rw [hp] at h
      by_cases hsr : sr r
      · simp only [hsr, Bool.not_true, Bool.false_eq_true, if_false] at h
        by_cases hw : maxWait ≤ elapsed
        · simp only [if_pos hw, Option.some.injEq] at h
          subst h
          simp
        · simp only [if_neg hw, hitMaxRetrials, Bool.false_eq_true,
            if_false] at h
          exact ih _ _ _ _ h
      · simp only [Bool.not_eq_true] at hsr
        simp only [hsr, Bool.not_false, if_true, Option.some.injEq] at h
        subst h
        simp

/-- The retry loop raises the wait-timeout signal only after observing a
probe result that the should-retry predicate still classifies as not done. -/
theorem retryAux_waitException_nonterminal (probe : ℕ → ProbeOutcome)
    (sr : PollResult → Bool) (delay : ℕ → ℚ) (maxWait : ℚ)
    (mr : Option ℕ) :
    ∀ fuel n elapsed slept run,
      retryAux probe sr delay maxWait mr fuel n elapsed slept = some run →
      run.outcome = RetryOutcome.err .waitException →
      ∃ m r, probe m = .ok r ∧ sr r = true := by
  intro fuel
  induction fuel with
  | zero =>
    intro n elapsed slept run h
    simp [retryAux] at h
  | succ fuel ih =>
    intro n elapsed slept run h hout
    simp only [retryAux] at h
    cases hp : probe n with
    | transportError e =>
      rw [hp] at h
      simp only [Option.some.injEq] at h
      subst h
      simp at hout
    | ok r =>
      rw [hp] at h
      by_cases hsr : sr r
      · simp only [hsr, Bool.not_true, Bool.false_eq_true, if_false] at h
        by_cases hw : maxWait ≤ elapsed
        · exact ⟨n, r, hp, hsr⟩
        · simp only [if_neg hw] at h
          by_cases hm : hitMaxRetrials mr n
          · exact ⟨n, r, hp, hsr⟩
          · simp only [hm, Bool.false_eq_true, if_false] at h
            exact ih _ _ _ _ h hout
      · simp only [Bool.not_eq_true] at hsr
        simp only [hsr, Bool.not_false, if_true, Option.some.injEq] at h
        subst h
        simp at hout

/-- A terminal result returned by the retry loop is exactly a snapshot read
by some probe that the should-retry predicate classified as done; no field is
modified on the way out. -/
theorem retryAux_done_from_probe (probe : ℕ → ProbeOutcome)
    (sr : PollResult → Bool) (delay : ℕ → ℚ) (maxWait : ℚ)
    (mr : Option ℕ) :
    ∀ fuel n elapsed slept run r,
      retryAux probe sr delay maxWait mr fuel n elapsed slept = some run →
      run.outcome = RetryOutcome.done r →
      ∃ m, probe m = .ok r ∧ sr r = false := by
  intro fuel
  induction fuel with
  | zero =>
    intro n elapsed slept run r h
    simp [retryAux] at h
  | succ fuel ih =>
    intro n elapsed slept run r h hout
    simp only [retryAux] at h
    cases hp : probe n with
    | transportError e =>
      rw [hp] at h
      simp only [Option.some.injEq] at h
      subst h
      simp at hout
    | ok r' =>
      rw [hp] at h
      by_cases hsr : sr r'
      · simp only [hsr, Bool.not_true, Bool.false_eq_true, if_false] at h
        by_cases hw : maxWait ≤ elapsed
        · simp only [if_pos hw, Option.some.injEq] at h
          subst h
          simp at hout
        · simp only [if_neg hw] at h
          by_cases hm : hitMaxRetrials mr n
          · simp only [if_pos hm, Option.some.injEq] at h
            subst h
            simp at hout
          · simp only [hm, Bool.false_eq_true, if_false] at h
            exact ih _ _ _ _ _ h hout
      · simp only [Bool.not_eq_true] at hsr
        simp only [hsr, Bool.not_false, if_true, Option.some.injEq] at h
        subst h
        simp only [RetryOutcome.done.injEq] at hout
        exact ⟨n, hout ▸ hp, hout ▸ hsr⟩

/-- A first probe already classified as done makes the retry loop return it
at once: one probe, one status update, no sleeps. -/
theorem retryOnResult_first_done (probe : ℕ → ProbeOutcome)
    (sr : PollResult → Bool) (delay : ℕ → ℚ) (maxWait : ℚ) (mr : Option ℕ)
    (fuel : ℕ) (r : PollResult) (h0 : probe 0 = .ok r) (hsr : sr r = false)
    (hfuel : 1 ≤ fuel) :
    RetryOnResult probe sr delay maxWait mr fuel = some ⟨.done r, 1, 1, []⟩ := by
  obtain ⟨fuel', rfl⟩ : ∃ k, fuel = k + 1 :=
    ⟨fuel - 1, (Nat.succ_pred_eq_of_pos hfuel).symm⟩
  simp [RetryOnResult, retryAux, h0, hsr]

/-- At any loop iteration, a probe whose snapshot the should-retry predicate
classifies as done stops the loop there and returns that snapshot, whatever
its state, the elapsed time, or the retrial setting. -/
theorem retryAux_step_done (probe : ℕ → ProbeOutcome) (sr : PollResult → Bool)
    (delay : ℕ → ℚ) (maxWait : ℚ) (mr : Option ℕ) (fuel n : ℕ) (elapsed : ℚ)
    (slept : List ℚ) (r : PollResult) (h : probe n = .ok r)
    (hsr : sr r = false) :
    retryAux probe sr delay maxWait mr (fuel + 1) n elapsed slept =
      some ⟨.done r, n + 1, n + 1, slept.reverse⟩ := by
  simp [retryAux, h, hsr]

set_option maxRecDepth 100000 in
/-- C1: when the retry loop exhausts the `max_wait_ms` budget while the
watched resource is still non-terminal (signalled as `retry.WaitException`),
each wait function raises `WaitForCompletionTimeoutError` with the message
that names the watched entity (backup resp. restore) and suggests the
corresponding out-of-band describe status-check command. -/
theorem c1_timeout_raises_typed_error (probe : ℕ → ProbeOutcome)
    (cfg : WaitConfig) (j : ℕ → ℚ) (fuel : ℕ) (outB outR : WaitOutcome)
    (runB runR : EngineRun)
    (hB : WaitForBackupToFinish probe cfg j fuel = some (outB, runB))
    (hR : WaitForRestoreToFinish probe cfg j fuel = some (outR, runR))
    (hwB : runB.outcome = RetryOutcome.err .waitException)
    (hwR : runR.outcome = RetryOutcome.err .waitException) :
    outB = WaitOutcome.timeoutError backupTimeoutMsg ∧
    outR = WaitOutcome.timeoutError restoreTimeoutMsg ∧
    (∃ m r, probe m = .ok r ∧ IsNotDone r = true) ∧
    "backup".toList <:+: backupTimeoutMsg.toList ∧
    "gcloud container backup-restore backups describe".toList <:+:
      backupTimeoutMsg.toList ∧
    "restore".toList <:+: restoreTimeoutMsg.toList ∧
    "gcloud container backup-restore restores describe".toList <:+:
      restoreTimeoutMsg.toList := by
  obtain ⟨hengB, houtB⟩ := WaitForBackupToFinish_inv probe cfg j fuel outB runB hB
  obtain ⟨_, houtR⟩ := WaitForRestoreToFinish_inv probe cfg j fuel outR runR hR
  refine ⟨?_, ?_, ?_, ?_, ?_, ?_, ?_⟩
  · rw [houtB, hwB]
    rfl
  · rw [houtR, hwR]
    rfl
  · exact retryAux_waitException_nonterminal probe IsNotDone _ _ none fuel 0 0
      [] runB hengB hwB
  · decide
  · decide
  · decide
  · decide

/-- C1 witness: a prober that never reaches a terminal state together with an
already-exhausted time budget times out on the first probe, and both wait
functions raise the typed timeout error with their exact source messages. -/
theorem c1_timeout_raises_typed_error_witness :
    WaitForBackupToFinish probeAlwaysInProgress zeroBudgetConfig zeroJitter 1 =
      some (WaitOutcome.timeoutError backupTimeoutMsg, timeoutRun) ∧
    WaitForRestoreToFinish probeAlwaysInProgress zeroBudgetConfig zeroJitter 1 =
      some (WaitOutcome.timeoutError restoreTimeoutMsg, timeoutRun) ∧
    timeoutRun.outcome = RetryOutcome.err .waitException ∧
    WaitOutcome.timeoutError backupTimeoutMsg =
      WaitOutcome.timeoutError backupTimeoutMsg ∧
    WaitOutcome.timeoutError restoreTimeoutMsg =
      WaitOutcome.timeoutError restoreTimeoutMsg :=
  ⟨rfl, rfl, rfl,
    (c1_timeout_raises_typed_error probeAlwaysInProgress zeroBudgetConfig
        zeroJitter 1 (.timeoutError backupTimeoutMsg)
        (.timeoutError restoreTimeoutMsg) timeoutRun timeoutRun rfl rfl rfl
        rfl).1 ▸ rfl,
    (c1_timeout_raises_typed_error probeAlwaysInProgress zeroBudgetConfig
        zeroJitter 1 (.timeoutError backupTimeoutMsg)
        (.timeoutError restoreTimeoutMsg) timeoutRun timeoutRun rfl rfl rfl
        rfl).2.1 ▸ rfl⟩

/-- C2: any error produced by the retry loop other than the wait-timeout
signal — in particular a transport-level failure of the remote read —
propagates to the caller unchanged: the wait functions catch only
`retry.WaitException` and translate nothing else. -/
theorem c2_other_errors_propagate_unchanged (probe : ℕ → ProbeOutcome)
    (cfg : WaitConfig) (j : ℕ → ℚ) (fuel : ℕ) (out : WaitOutcome)
    (run : EngineRun) (e : RetryError)
    (h : WaitForBackupToFinish probe cfg j fuel = some (out, run) ∨
      WaitForRestoreToFinish probe cfg j fuel = some (out, run))
    (he : run.outcome = RetryOutcome.err e) (hne : e ≠ RetryError.waitException) :
    out = WaitOutcome.propagates e := by
  rcases h with h | h
  · obtain ⟨_, hout⟩ := WaitForBackupToFinish_inv probe cfg j fuel out run h
    rw [hout, he]
    cases e with
    | waitException => exact absurd rfl hne
    | maxRetrials => rfl
    | transport s => rfl
  · obtain ⟨_, hout⟩ := WaitForRestoreToFinish_inv probe cfg j fuel out run h
    rw [hout, he]
    cases e with
    | waitException => exact absurd rfl hne
    | maxRetrials => rfl
    | transport s => rfl

/-- C2 witness: a transport failure on the first probe reaches the caller of
`WaitForBackupToFinish` as the original error, untranslated. -/
theorem c2_other_errors_propagate_unchanged_witness :
    WaitForBackupToFinish probeTransportDown backupWaitDefaults zeroJitter 1 =
      some (WaitOutcome.propagates (.transport "connection reset"),
        transportRun) ∧
    transportRun.outcome = RetryOutcome.err (.transport "connection reset") ∧
    RetryError.transport "connection reset" ≠ RetryError.waitException ∧
    WaitOutcome.propagates (.transport "connection reset") =
      WaitOutcome.propagates (.transport "connection reset") :=
  ⟨rfl, rfl, by decide,
    (c2_other_errors_propagate_unchanged probeTransportDown backupWaitDefaults
        zeroJitter 1 (.propagates (.transport "connection reset")) transportRun
        (.transport "connection reset") (Or.inl rfl) rfl (by decide)) ▸ rfl⟩

/-- C3: a terminal observation makes each wait function return the final poll
result of the retry loop unchanged — the very snapshot some probe read — after
exactly the one completion line that names the result's terminal state. -/
theorem c3_terminal_returns_result_unchanged (probe : ℕ → ProbeOutcome)
    (cfg : WaitConfig) (j : ℕ → ℚ) (fuel : ℕ) (outB outR : WaitOutcome)
    (runB runR : EngineRun) (r : PollResult)
    (hB : WaitForBackupToFinish probe cfg j fuel = some (outB, runB))
    (hR : WaitForRestoreToFinish probe cfg j fuel = some (outR, runR))
    (hdB : runB.outcome = RetryOutcome.done r)
    (hdR : runR.outcome = RetryOutcome.done r) :
    outB = WaitOutcome.returns r (backupCompletionLine r.state) ∧
    outR = WaitOutcome.returns r (restoreCompletionLine r.state) ∧
    (∃ m, probe m = .ok r ∧ IsNotDone r = false) := by
  obtain ⟨hengB, houtB⟩ := WaitForBackupToFinish_inv probe cfg j fuel outB runB hB
  obtain ⟨_, houtR⟩ := WaitForRestoreToFinish_inv probe cfg j fuel outR runR hR
  refine ⟨?_, ?_, ?_⟩
  · rw [houtB, hdB]
    rfl
  · rw [houtR, hdR]
    rfl
  · exact retryAux_done_from_probe probe IsNotDone _ _ none fuel 0 0 [] runB r
      hengB hdB

/-- C3 witness: a first probe that already reads SUCCEEDED is returned as-is
by both wait functions, with the completion line naming SUCCEEDED. -/
theorem c3_terminal_returns_result_unchanged_witness :
    WaitForBackupToFinish probeAlreadySucceeded backupWaitDefaults zeroJitter 1 =
      some (WaitOutcome.returns succeededSnapshot
        (backupCompletionLine .SUCCEEDED), successRun) ∧
    WaitForRestoreToFinish probeAlreadySucceeded backupWaitDefaults zeroJitter 1 =
      some (WaitOutcome.returns succeededSnapshot
        (restoreCompletionLine .SUCCEEDED), successRun) ∧
    successRun.outcome = RetryOutcome.done succeededSnapshot ∧
    WaitOutcome.returns succeededSnapshot (backupCompletionLine .SUCCEEDED) =
      WaitOutcome.returns succeededSnapshot
        (backupCompletionLine succeededSnapshot.state) :=
  ⟨rfl, rfl, rfl,
    (c3_terminal_returns_result_unchanged probeAlreadySucceeded
        backupWaitDefaults zeroJitter 1
        (.returns succeededSnapshot (backupCompletionLine .SUCCEEDED))
        (.returns succeededSnapshot (restoreCompletionLine .SUCCEEDED))
        successRun successRun succeededSnapshot rfl rfl rfl rfl).1 ▸ rfl⟩

/-- C4: both wait calls configure the retry loop with `max_retrials = None`,
so no retrial-count bound exists: the max-retrials error is unreachable, no
run of either wait function ever propagates it, and the unlimited setting
never trips the retrial-count check. -/
theorem c4_max_retrials_unreachable (probe : ℕ → ProbeOutcome)
    (cfg : WaitConfig) (j : ℕ → ℚ) (fuel : ℕ) (out : WaitOutcome)
    (run : EngineRun)
    (h : WaitForBackupToFinish probe cfg j fuel = some (out, run) ∨
      WaitForRestoreToFinish probe cfg j fuel = some (out, run)) :
    run.outcome ≠ RetryOutcome.err .maxRetrials ∧
    out ≠ WaitOutcome.propagates .maxRetrials ∧
    (∀ n, hitMaxRetrials none n = false) := by
  have key : RetryOnResult probe IsNotDone
      (delaySeq (cfg.sleep_ms : ℚ) cfg.exponential_sleep_multiplier
        (cfg.wait_ceiling_ms : ℚ) j) (cfg.max_wait_ms : ℚ) none fuel =
      some run ∧
      (out = backupTranslate run.outcome ∨ out = restoreTranslate run.outcome) := by
    rcases h with h | h
    · obtain ⟨heng, hout⟩ := WaitForBackupToFinish_inv probe cfg j fuel out run h
      exact ⟨heng, Or.inl hout⟩
    · obtain ⟨heng, hout⟩ := WaitForRestoreToFinish_inv probe cfg j fuel out run h
      exact ⟨heng, Or.inr hout⟩
  have hnr : run.outcome ≠ RetryOutcome.err .maxRetrials :=
    retryAux_none_not_maxRetrials probe IsNotDone _ _ fuel 0 0 [] run key.1
  refine ⟨hnr, ?_, fun n => rfl⟩
  intro hcontra
  rcases key.2 with hout | hout
  · rw [hout] at hcontra
    cases ho : run.outcome with
    | done r => rw [ho] at hcontra; simp [backupTranslate] at hcontra
    | err e =>
      cases e with
      | waitException => rw [ho] at hcontra; simp [backupTranslate] at hcontra
      | maxRetrials => exact hnr ho
      | transport s => rw [ho] at hcontra; simp [backupTranslate] at hcontra
  · rw [hout] at hcontra
    cases ho : run.outcome with
    | done r => rw [ho] at hcontra; simp [restoreTranslate] at hcontra
    | err e =>
      cases e with
      | waitException => rw [ho] at hcontra; simp [restoreTranslate] at hcontra
      | maxRetrials => exact hnr ho
      | transport s => rw [ho] at hcontra; simp [restoreTranslate] at hcontra

/-- C4 witness: a concrete run of `WaitForBackupToFinish` neither ends in nor
propagates the max-retrials error, and the unlimited setting never trips the
retrial-count check at index 0. -/
theorem c4_max_retrials_unreachable_witness :
    WaitForBackupToFinish probeAlreadySucceeded backupWaitDefaults zeroJitter 1 =
      some (WaitOutcome.returns succeededSnapshot
        (backupCompletionLine .SUCCEEDED), successRun) ∧
    successRun.outcome ≠ RetryOutcome.err .maxRetrials ∧
    WaitOutcome.returns succeededSnapshot (backupCompletionLine .SUCCEEDED) ≠
      WaitOutcome.propagates .maxRetrials ∧
    hitMaxRetrials none 0 = false := by
  have h := c4_max_retrials_unreachable probeAlreadySucceeded
    backupWaitDefaults zeroJitter 1
    (.returns succeededSnapshot (backupCompletionLine .SUCCEEDED)) successRun
    (Or.inl rfl)
  exact ⟨rfl, h.1, h.2.1, h.2.2 0⟩

/-- C5: whenever a wait call's probe loop observes a terminal-but-failed
domain state (state = FAILED), at whatever iteration, both wait functions
return that snapshot to the caller as a valid poll result rather than raising
an engine-level error; and termination of the loop is decided solely by the
`IsNotDone` predicate: at any iteration, any snapshot it classifies as done
stops the loop and is returned whatever its state. -/
theorem c5_failed_state_is_valid_result (probe : ℕ → ProbeOutcome)
    (cfg : WaitConfig) (j : ℕ → ℚ) (fuel : ℕ) (outB outR : WaitOutcome)
    (runB runR : EngineRun) (r : PollResult)
    (hB : WaitForBackupToFinish probe cfg j fuel = some (outB, runB))
    (hR : WaitForRestoreToFinish probe cfg j fuel = some (outR, runR))
    (hdB : runB.outcome = RetryOutcome.done r)
    (hdR : runR.outcome = RetryOutcome.done r)
    (hf : r.state = ResourceState.FAILED) :
    outB = WaitOutcome.returns r (backupCompletionLine r.state) ∧
    outR = WaitOutcome.returns r (restoreCompletionLine r.state) ∧
    (∀ msg e, outB ≠ WaitOutcome.timeoutError msg ∧
      outB ≠ WaitOutcome.propagates e ∧
      outR ≠ WaitOutcome.timeoutError msg ∧
      outR ≠ WaitOutcome.propagates e) ∧
    (∃ m, probe m = .ok r ∧ IsNotDone r = false) ∧
    (∀ (n fuel' : ℕ) (elapsed : ℚ) (slept : List ℚ) (r' : PollResult),
      probe n = .ok r' → IsNotDone r' = false →
      retryAux probe IsNotDone
        (delaySeq (cfg.sleep_ms : ℚ) cfg.exponential_sleep_multiplier
          (cfg.wait_ceiling_ms : ℚ) j) (cfg.max_wait_ms : ℚ) none (fuel' + 1)
        n elapsed slept = some ⟨.done r', n + 1, n + 1, slept.reverse⟩) := by
  obtain ⟨hengB, houtB⟩ := WaitForBackupToFinish_inv probe cfg j fuel outB runB hB
  obtain ⟨_, houtR⟩ := WaitForRestoreToFinish_inv probe cfg j fuel outR runR hR
  have h1 : outB = WaitOutcome.returns r (backupCompletionLine r.state) := by
    rw [houtB, hdB]
    rfl
  have h2 : outR = WaitOutcome.returns r (restoreCompletionLine r.state) := by
    rw [houtR, hdR]
    rfl
  refine ⟨h1, h2, ?_, ?_, ?_⟩
  · intro msg e
    refine ⟨?_, ?_, ?_, ?_⟩ <;> simp [h1, h2]
  · obtain ⟨m, hm, _⟩ := retryAux_done_from_probe probe IsNotDone _ _ none
      fuel 0 0 [] runB r hengB hdB
    exact ⟨m, hm, by simp [IsNotDone, hf, terminalState]⟩
  · intro n fuel' elapsed slept r' hp hnd
    exact retryAux_step_done probe IsNotDone _ _ none fuel' n elapsed slept r'
      hp hnd

/-- C5 witness: a prober that reads IN_PROGRESS first and FAILED on the
second probe makes both wait functions return the FAILED snapshot normally
after one sleep. -/
theorem c5_failed_state_is_valid_result_witness :
    WaitForBackupToFinish probeFailedSecond backupWaitDefaults zeroJitter 2 =
      some (WaitOutcome.returns failedSnapshot
        (backupCompletionLine failedSnapshot.state), delayedFailedRun) ∧
    WaitForRestoreToFinish probeFailedSecond backupWaitDefaults zeroJitter 2 =
      some (WaitOutcome.returns failedSnapshot
        (restoreCompletionLine failedSnapshot.state), delayedFailedRun) ∧
    delayedFailedRun.outcome = RetryOutcome.done failedSnapshot ∧
    failedSnapshot.state = ResourceState.FAILED ∧
    WaitOutcome.returns failedSnapshot
        (backupCompletionLine failedSnapshot.state) =
      WaitOutcome.returns failedSnapshot
        (backupCompletionLine failedSnapshot.state) ∧
    WaitOutcome.returns failedSnapshot
        (restoreCompletionLine failedSnapshot.state) =
      WaitOutcome.returns failedSnapshot
        (restoreCompletionLine failedSnapshot.state) :=
  ⟨rfl, rfl, rfl, rfl,
    (c5_failed_state_is_valid_result probeFailedSecond backupWaitDefaults
        zeroJitter 2
        (.returns failedSnapshot (backupCompletionLine failedSnapshot.state))
        (.returns failedSnapshot (restoreCompletionLine failedSnapshot.state))
        delayedFailedRun delayedFailedRun failedSnapshot rfl rfl rfl rfl
        rfl).1 ▸ rfl,
    (c5_failed_state_is_valid_result probeFailedSecond backupWaitDefaults
        zeroJitter 2
        (.returns failedSnapshot (backupCompletionLine failedSnapshot.state))
        (.returns failedSnapshot (restoreCompletionLine failedSnapshot.state))
        delayedFailedRun delayedFailedRun failedSnapshot rfl rfl rfl rfl
        rfl).2.1 ▸ rfl⟩

/-- C6: for every configured `(base_delay, multiplier, jitter ≥ 0, ceiling)`,
the delay sequence driving the probe loop starts at `base_delay` (the
`sleep_ms` argument), and every subsequent delay lies in the interval
`[previous * multiplier, previous * multiplier + jitter]` with both endpoints
clipped to at most the ceiling (`wait_ceiling_ms`). -/
theorem c6_backoff_delay_bounds (base mult jitter ceiling : ℚ) (j : ℕ → ℚ)
    (hj : ∀ n, 0 ≤ j n ∧ j n ≤ jitter) :
    delaySeq base mult ceiling j 0 = base ∧
    (∀ n,
      min (delaySeq base mult ceiling j n * mult) ceiling ≤
        delaySeq base mult ceiling j (n + 1) ∧
      delaySeq base mult ceiling j (n + 1) ≤
        min (delaySeq base mult ceiling j n * mult + jitter) ceiling) ∧
    (∀ cfg : WaitConfig,
      delaySeq (cfg.sleep_ms : ℚ) cfg.exponential_sleep_multiplier
        (cfg.wait_ceiling_ms : ℚ) j 0 = (cfg.sleep_ms : ℚ)) := by
  refine ⟨rfl, fun n => ?_, fun cfg => rfl⟩
  constructor
  · exact min_le_min (by linarith [(hj n).1]) le_rfl
  · exact min_le_min (by linarith [(hj n).2]) le_rfl

/-- C6 witness: with the default configuration values and zero jitter draws,
the first delay is 2000 ms and the second lies within the claimed interval. -/
theorem c6_backoff_delay_bounds_witness :
    delaySeq 2000 (7 / 5) 180000 zeroJitter 0 = 2000 ∧
    min (delaySeq 2000 (7 / 5) 180000 zeroJitter 0 * (7 / 5)) 180000 ≤
      delaySeq 2000 (7 / 5) 180000 zeroJitter 1 ∧
    delaySeq 2000 (7 / 5) 180000 zeroJitter 1 ≤
      min (delaySeq 2000 (7 / 5) 180000 zeroJitter 0 * (7 / 5) + 1000)
        180000 := by
  have h := c6_backoff_delay_bounds 2000 (7 / 5) 1000 180000 zeroJitter
    (fun n => by constructor <;> norm_num [zeroJitter])
  exact ⟨h.1, (h.2.1 0).1, (h.2.1 0).2⟩

/-- C8: a prober whose first read is already terminal makes the wait
operation idempotent: any two calls whose first probe reads the same terminal
snapshot return the same value — regardless of configuration, jitter draws or
remaining probe stream — and each such call performs zero sleeps, exactly one
probe and exactly one status-update callback. -/
theorem c8_idempotent_when_already_terminal (p1 p2 : ℕ → ProbeOutcome)
    (cfg1 cfg2 : WaitConfig) (j1 j2 : ℕ → ℚ) (f1 f2 : ℕ) (r : PollResult)
    (h1 : p1 0 = .ok r) (h2 : p2 0 = .ok r)
    (ht : terminalState r.state = true) (hf1 : 1 ≤ f1) (hf2 : 1 ≤ f2) :
    WaitForBackupToFinish p1 cfg1 j1 f1 = WaitForBackupToFinish p2 cfg2 j2 f2 ∧
    WaitForBackupToFinish p1 cfg1 j1 f1 =
      some (WaitOutcome.returns r (backupCompletionLine r.state),
        ⟨.done r, 1, 1, []⟩) ∧
    WaitForRestoreToFinish p1 cfg1 j1 f1 =
      some (WaitOutcome.returns r (restoreCompletionLine r.state),
        ⟨.done r, 1, 1, []⟩) := by
  have hnd : IsNotDone r = false := by
    simp [IsNotDone, ht]
  have heng1 := retryOnResult_first_done p1 IsNotDone
    (delaySeq (cfg1.sleep_ms : ℚ) cfg1.exponential_sleep_multiplier
      (cfg1.wait_ceiling_ms : ℚ) j1) (cfg1.max_wait_ms : ℚ) none f1 r h1 hnd
    hf1
  have heng2 := retryOnResult_first_done p2 IsNotDone
    (delaySeq (cfg2.sleep_ms : ℚ) cfg2.exponential_sleep_multiplier
      (cfg2.wait_ceiling_ms : ℚ) j2) (cfg2.max_wait_ms : ℚ) none f2 r h2 hnd
    hf2
  have hb1 : WaitForBackupToFinish p1 cfg1 j1 f1 =
      some (WaitOutcome.returns r (backupCompletionLine r.state),
        ⟨.done r, 1, 1, []⟩) := by
    simp [WaitForBackupToFinish, heng1, backupTranslate]
  have hb2 : WaitForBackupToFinish p2 cfg2 j2 f2 =
      some (WaitOutcome.returns r (backupCompletionLine r.state),
        ⟨.done r, 1, 1, []⟩) := by
    simp [WaitForBackupToFinish, heng2, backupTranslate]
  refine ⟨hb1.trans hb2.symm, hb1, ?_⟩
  simp [WaitForRestoreToFinish, heng1, restoreTranslate]

/-- C8 witness: two calls with different configurations, jitter draws and
fuel, both first reading the same succeeded snapshot, return the same value
with zero sleeps and one status update. -/
theorem c8_idempotent_when_already_terminal_witness :
    probeAlreadySucceeded 0 = .ok succeededSnapshot ∧
    terminalState succeededSnapshot.state = true ∧
    WaitForBackupToFinish probeAlreadySucceeded backupWaitDefaults zeroJitter
        1 =
      WaitForBackupToFinish probeAlreadySucceeded zeroBudgetConfig
        (fun _ => 1) 2 ∧
    WaitForBackupToFinish probeAlreadySucceeded backupWaitDefaults zeroJitter
        1 =
      some (WaitOutcome.returns succeededSnapshot
        (backupCompletionLine succeededSnapshot.state),
        ⟨.done succeededSnapshot, 1, 1, []⟩) :=
  ⟨rfl, rfl,
    (c8_idempotent_when_already_terminal probeAlreadySucceeded
        probeAlreadySucceeded backupWaitDefaults zeroBudgetConfig zeroJitter
        (fun _ => 1) 1 2 succeededSnapshot rfl rfl rfl (le_refl 1)
        (by norm_num)).1,
    (c8_idempotent_when_already_terminal probeAlreadySucceeded
        probeAlreadySucceeded backupWaitDefaults zeroBudgetConfig zeroJitter
        (fun _ => 1) 1 2 succeededSnapshot rfl rfl rfl (le_refl 1)
        (by norm_num)).2.1⟩

end BackupRestoreUtil
